import Mathlib

/-
Verification of the segment-matching core of the onyxhikes trail map.

The repository contains two variants of the same matching logic:
`src/scripts/main.js` and `src/unnamed/part_000`.  The geometric core
(`calculateDistance`, `calculateTotalDistance`, `findClosestPointIndex`,
`findNearbyIndices`, `intelligentSample`, `createInterpolatedPath`,
`extractGpsTrackBetweenPoints`, `findSegmentByDistance`,
`findGpxSegmentForCoordinates`) is textually identical in the two variants
except for one policy: the part_000 variant overwrites the endpoints of an
accepted GPS path with the target coordinates
(`finalPath[0] = targetStart; finalPath[finalPath.length-1] = targetEnd` and
`segmentCoords[0] = startCoords; segmentCoords[...] = endCoords`), while the
main.js variant keeps the matched GPS endpoints.  We embed both variants at
once through a boolean `snap` parameter: `snap = true` is the part_000
behaviour, `snap = false` is the main.js behaviour.

JavaScript numbers are modelled as real numbers (exact arithmetic; the
standard caveat that IEEE-754 rounding is not modelled applies).  Arrays of
[lat, lon] pairs are lists of pairs of reals.  JavaScript array reads
`a[i]` on indices produced by the loops are modelled with `List.getD` with
a default point; every access performed by the code is in bounds.
-/

/-- A [lat, lon] coordinate pair, as used throughout the source. -/
abbrev Point := ℝ × ℝ

/-- Default point used for the (never out-of-bounds) modelled array reads. -/
def pd : Point := (0, 0)

/-- JavaScript `Number.MAX_VALUE`, the initial value of the running minimum
in the search loops of the source. -/
noncomputable def MAX_VALUE : ℝ := 1.7976931348623157e308

/-- `calculateDistance` (main.js:563, part_000:356): planar distance in raw
degree units, `sqrt((lat1-lat2)^2 + (lon1-lon2)^2)`. -/
noncomputable def calculateDistance (coord1 coord2 : Point) : ℝ :=
  Real.sqrt ((coord1.1 - coord2.1) ^ 2 + (coord1.2 - coord2.2) ^ 2)

/-- `calculateTotalDistance` (main.js:571, part_000:364): sum of consecutive
planar distances along a path. -/
noncomputable def calculateTotalDistance : List Point → ℝ
  | [] => 0
  | [_] => 0
  | a :: b :: rest => calculateDistance a b + calculateTotalDistance (b :: rest)

/-- JavaScript `Math.round` on the nonnegative rationals produced by the
sampler: round half away from zero, i.e. `floor(x + 1/2)`. -/
def jsRound (x : ℚ) : ℕ := (Int.floor (x + 1 / 2)).toNat

/-- `intelligentSample` (main.js:618, part_000:411): keep the first point,
every `round(i * step)`-th point for `1 ≤ i < targetPoints - 1` with
`step = (length - 1) / (targetPoints - 1)`, and the last point.  The index
arithmetic of the source is done in floating point; it is modelled exactly
over ℚ. -/
def intelligentSample (coordinates : List Point) (targetPoints : ℕ) : List Point :=
  if coordinates.length ≤ targetPoints then coordinates
  else
    let step : ℚ := ((coordinates.length : ℚ) - 1) / ((targetPoints : ℚ) - 1)
    coordinates.getD 0 pd ::
      ((List.range' 1 (targetPoints - 2)).map fun (i : ℕ) =>
        coordinates.getD (jsRound ((i : ℚ) * step)) pd) ++
      [coordinates.getD (coordinates.length - 1) pd]

/-- `createInterpolatedPath` (main.js:635, part_000:428): `steps = 10`
evenly spaced linear interpolation points between `startCoords` and
`endCoords`, endpoints included (11 points in total). -/
noncomputable def createInterpolatedPath (startCoords endCoords : Point) : List Point :=
  let steps : ℕ := 10
  startCoords ::
    ((List.range' 1 (steps - 1)).map fun (i : ℕ) =>
      let ratio : ℝ := (i : ℝ) / (steps : ℝ)
      (startCoords.1 + (endCoords.1 - startCoords.1) * ratio,
       startCoords.2 + (endCoords.2 - startCoords.2) * ratio)) ++
    [endCoords]

/-- The running-minimum update loop shared by both passes of
`findClosestPointIndex`: fold `if (distance < minDistance) { minDistance =
distance; closestIndex = i; }` over a list of indices, starting from the
accumulated `(closestIndex, minDistance)` pair. -/
def bestIndexAux {α : Type} [LinearOrder α] (d : ℕ → α) : List ℕ → ℕ × α → ℕ × α
  | [], acc => acc
  | i :: rest, (b, bv) =>
    if d i < bv then bestIndexAux d rest (i, d i) else bestIndexAux d rest (b, bv)

/-- Indices visited by `for (let i = 0; i < len; i += step)`. -/
def strideIndices (len step : ℕ) : List ℕ :=
  List.range' 0 ((len + step - 1) / step) step

/-- The two-pass nearest-index search of `findClosestPointIndex`
(main.js:581, part_000:374), abstracted over the distance function
`d i = calculateDistance(coordinates[i], targetCoord)` so that the search—
which only compares distances—can also be run over any other linearly
ordered value type.  `maxValue` is the initial `minDistance`
(`Number.MAX_VALUE` in the source).  Pass 1 scans every `searchStep`-th
index; pass 2 rescans the window of radius `max(50, searchStep*2)` around
the pass-1 winner (JavaScript's `Math.max(0, ...)` clamp is Nat
subtraction here). -/
def findClosestPointIndexFn {α : Type} [LinearOrder α]
    (d : ℕ → α) (len : ℕ) (maxValue : α) : ℕ :=
  let searchStep := max 1 (len / 1000)
  let firstPass := bestIndexAux d (strideIndices len searchStep) (0, maxValue)
  let closestIndex := firstPass.1
  let searchRadius := max 50 (searchStep * 2)
  let searchStart := closestIndex - searchRadius
  let searchEnd := min len (closestIndex + searchRadius)
  (bestIndexAux d (List.range' searchStart (searchEnd - searchStart)) (closestIndex, maxValue)).1

/-- `findClosestPointIndex` (main.js:581, part_000:374) on an actual
coordinate list. -/
noncomputable def findClosestPointIndex (coordinates : List Point) (targetCoord : Point) : ℕ :=
  findClosestPointIndexFn (fun i => calculateDistance (coordinates.getD i pd) targetCoord)
    coordinates.length MAX_VALUE

/-- `findNearbyIndices` (main.js:530, part_000:323): all indices whose
planar distance to the target is ≤ maxDistance, collected in index order
and then sorted ascending by distance (JavaScript's stable
`sort((a,b) => a.distance - b.distance)`, modelled by the stable
insertion sort). -/
noncomputable def findNearbyIndices (gpxCoords : List Point) (targetCoord : Point)
    (maxDistance : ℝ) : List (ℕ × ℝ) :=
  let options := (List.range gpxCoords.length).filterMap fun i =>
    let distance := calculateDistance (gpxCoords.getD i pd) targetCoord
    if distance ≤ maxDistance then some (i, distance) else none
  options.insertionSort fun a b => a.2 ≤ b.2

/-- The raw slice `gpxCoords.slice(startIdx, endIdx + 1)` taken by
`extractGpsTrackBetweenPoints` after normalising the index order. -/
def extractRawSegment (gpxCoords : List Point) (startIdx endIdx : ℕ) : List Point :=
  (gpxCoords.drop (min startIdx endIdx)).take (max startIdx endIdx + 1 - min startIdx endIdx)

/-- The path `extractGpsTrackBetweenPoints` submits to the winding test:
the raw slice, sampled down to 200 points when longer than 300 points, and
— in the part_000 variant (`snap = true`) — with its two endpoints
overwritten by the target coordinates. -/
def extractFinalPath (snap : Bool) (gpxCoords : List Point) (startIdx endIdx : ℕ)
    (targetStart targetEnd : Point) : List Point :=
  let rawGpsSegment := extractRawSegment gpxCoords startIdx endIdx
  let sampled := if 300 < rawGpsSegment.length then intelligentSample rawGpsSegment 200
    else rawGpsSegment
  if snap then (sampled.set 0 targetStart).set (sampled.length - 1) targetEnd else sampled

/-- The winding ratio computed by `extractGpsTrackBetweenPoints`: total path
length of the final path divided by the straight-line distance between the
original targets.  (In the source a zero straight-line distance yields
Infinity or NaN, which fails the acceptance band exactly as the Lean
convention `x / 0 = 0` does.) -/
noncomputable def extractWindingRatio (snap : Bool) (gpxCoords : List Point)
    (startIdx endIdx : ℕ) (targetStart targetEnd : Point) : ℝ :=
  calculateTotalDistance (extractFinalPath snap gpxCoords startIdx endIdx targetStart targetEnd) /
    calculateDistance targetStart targetEnd

/-- `extractGpsTrackBetweenPoints` (main.js:451, part_000:243): slice the
track between the two indices, reject slices of fewer than 2 points,
sample if longer than 300 points, apply the endpoint policy of the variant,
and accept exactly when the winding ratio is strictly between 0.5 and 10. -/
noncomputable def extractGpsTrackBetweenPoints (snap : Bool) (gpxCoords : List Point)
    (startIdx endIdx : ℕ) (targetStart targetEnd : Point) : Option (List Point) :=
  let rawGpsSegment := extractRawSegment gpxCoords startIdx endIdx
  if rawGpsSegment.length < 2 then none
  else
    let finalPath := extractFinalPath snap gpxCoords startIdx endIdx targetStart targetEnd
    let windingRatio := extractWindingRatio snap gpxCoords startIdx endIdx targetStart targetEnd
    if 0.5 < windingRatio ∧ windingRatio < 10 then some finalPath else none

/-- A GPX track as delivered by the external GPXParser library: its points,
its optional name, and the parser's cumulative-distance array
`track.distance.cumul` (in meters), when present. -/
structure Track where
  points : List Point
  name : Option String
  cumul : Option (List ℝ)

/-- Placeholder for a JavaScript `undefined` track read. -/
def defaultTrack : Track := ⟨[], none, none⟩

/-- The index pairs visited by the nested loops of `findSegmentByDistance`:
`for (i = 0; i < n - 10; i++) for (j = i + 10; j < n; j++)`, in visit
order. -/
def distancePairs (n : ℕ) : List (ℕ × ℕ) :=
  (List.range (n - 10)).flatMap fun i =>
    (List.range' (i + 10) (n - (i + 10))).map fun j => (i, j)

/-- The scan loop of `findSegmentByDistance`: accept the first index pair
whose cumulative-distance difference is within 50% relative error of the
target distance, and return the corresponding slice (with endpoints
overwritten by the targets in the part_000 variant).  No winding test is
applied here. -/
noncomputable def scanPairsForDistance (snap : Bool) (points : List Point) (cumul : List ℝ)
    (targetDistance : ℝ) (startCoords endCoords : Point) :
    List (ℕ × ℕ) → Option (List Point)
  | [] => none
  | (i, j) :: rest =>
    let segmentDistance := cumul.getD j 0 - cumul.getD i 0
    let distanceRatio := |segmentDistance - targetDistance| / targetDistance
    if distanceRatio < 0.5 then
      let segmentCoords := (points.drop i).take (j + 1 - i)
      if 2 ≤ segmentCoords.length then
        some (if snap then (segmentCoords.set 0 startCoords).set (segmentCoords.length - 1) endCoords
          else segmentCoords)
      else scanPairsForDistance snap points cumul targetDistance startCoords endCoords rest
    else scanPairsForDistance snap points cumul targetDistance startCoords endCoords rest

/-- `findSegmentByDistance` (main.js:493, part_000:285): strategy 3 of the
matcher.  The target arc length is the straight-line target distance in
degrees times the fixed 111000 m/degree conversion. -/
noncomputable def findSegmentByDistance (snap : Bool) (track : Track)
    (startCoords endCoords : Point) : Option (List Point) :=
  match track.cumul with
  | none => none
  | some cumulativeDistances =>
    if cumulativeDistances.length ≠ track.points.length then none
    else
      let targetDistance := calculateDistance startCoords endCoords * 111000
      scanPairsForDistance snap track.points cumulativeDistances targetDistance
        startCoords endCoords (distancePairs track.points.length)

/-- One step of the best-combination loop of strategy 2
(main.js:416-429, part_000:208-221): for a (start candidate, end candidate)
pair with distinct indices, extract the slice and keep it if its summed
candidate distance beats the best score so far. -/
noncomputable def combineStep (snap : Bool) (gpxCoords : List Point)
    (startCoords endCoords : Point) (acc : Option (List Point) × ℝ)
    (pair : (ℕ × ℝ) × (ℕ × ℝ)) : Option (List Point) × ℝ :=
  let startPoint := pair.1
  let endPoint := pair.2
  if startPoint.1 ≠ endPoint.1 then
    match extractGpsTrackBetweenPoints snap gpxCoords startPoint.1 endPoint.1
      startCoords endCoords with
    | some path =>
      if 2 ≤ path.length then
        let score := startPoint.2 + endPoint.2
        if score < acc.2 then (some path, score) else acc
      else acc
    | none => acc
  else acc

/-- Strategies 2 and 3 of `findGpxSegmentForCoordinates` (main.js:405-448,
part_000:197-240): try every pairing of the nearest 5 start and end
candidates keeping the accepted path with the least summed distance, and
fall back to the distance-budget search when the parser supplies a
cumulative-distance array. -/
noncomputable def findGpxStrategies23 (snap : Bool) (track : Track)
    (startCoords endCoords : Point) : Option (List Point) :=
  let gpxCoords := track.points
  let maxDistance : ℝ := 3.0
  let nearbyStartPoints := (findNearbyIndices gpxCoords startCoords maxDistance).take 5
  let nearbyEndPoints := (findNearbyIndices gpxCoords endCoords maxDistance).take 5
  let best :=
    if nearbyStartPoints.length ≠ 0 ∧ nearbyEndPoints.length ≠ 0 then
      (List.foldl (combineStep snap gpxCoords startCoords endCoords) (none, MAX_VALUE)
        (nearbyStartPoints.flatMap fun sp => nearbyEndPoints.map fun ep => (sp, ep))).1
    else none
  match best with
  | some bestPath => some bestPath
  | none =>
    if track.cumul.isSome then findSegmentByDistance snap track startCoords endCoords else none

/-- `findGpxSegmentForCoordinates` (main.js:380, part_000:172): the
three-strategy matcher.  When both nearest-index distances are within the
`maxDistance = 3.0` tolerance the function returns the result of strategy 1
directly — also when that result is `null` — and only otherwise proceeds to
strategies 2 and 3. -/
noncomputable def findGpxSegmentForCoordinates (snap : Bool) (track : Track)
    (startCoords endCoords : Point) : Option (List Point) :=
  let gpxCoords := track.points
  let maxDistance : ℝ := 3.0
  let bestStartIdx := findClosestPointIndex gpxCoords startCoords
  let bestEndIdx := findClosestPointIndex gpxCoords endCoords
  let startDist := calculateDistance (gpxCoords.getD bestStartIdx pd) startCoords
  let endDist := calculateDistance (gpxCoords.getD bestEndIdx pd) endCoords
  if startDist ≤ maxDistance ∧ endDist ≤ maxDistance then
    extractGpsTrackBetweenPoints snap gpxCoords bestStartIdx bestEndIdx startCoords endCoords
  else
    findGpxStrategies23 snap track startCoords endCoords

/-- One record of `route.json`: the externally supplied SegmentSpec. -/
structure SegmentSpec where
  name : String
  start_location : String
  finish_location : String
  distance : ℝ
  notes : String
  start_coords : Point
  finish_coords : Point

/-- The object built by `buildSegmentObject` (main.js:541, part_000:334).
The `elevation` and `highlights` fields of the source are presentation-layer
lookups outside the matching core and are not modelled. -/
structure SegmentObj where
  id : ℕ
  name : String
  start_location : String
  finish_location : String
  distance : ℝ
  notes : String
  coordinates : List Point
  startCoords : Point
  endCoords : Point

/-- `buildSegmentObject rd index coords startCoords endCoords`. -/
def buildSegmentObject (rd : SegmentSpec) (index : ℕ) (coords : List Point)
    (startCoords endCoords : Point) : SegmentObj :=
  { id := index + 1
    name := rd.name
    start_location := rd.start_location
    finish_location := rd.finish_location
    distance := rd.distance
    notes := rd.notes
    coordinates := coords
    startCoords := startCoords
    endCoords := endCoords }

/-- Which branch of the assembler produced a segment: the real-GPS branch
(counted by `gpxMatchCount++` in the source) or the interpolation branch
(counted by `interpolatedCount++`). -/
inductive Provenance : Type
  | gpsMatched : Provenance
  | interpolated : Provenance
deriving DecidableEq

/-- The parsed GPX document (external GPXParser library output). -/
structure GpxParser where
  tracks : List Track

/-- The generic per-segment assembly loop `for (i = 0; i < routeData.length;
i++) segments.push(step(routeData[i], i))` shared by both variants of
`processSegmentData`; each variant supplies its own loop body. -/
def assembleLoop (step : SegmentSpec → ℕ → SegmentObj × Provenance) :
    List SegmentSpec → ℕ → List (SegmentObj × Provenance)
  | [], _ => []
  | segmentData :: rest, i => step segmentData i :: assembleLoop step rest (i + 1)

/-- Loop body of the no-GPX branch of `processSegmentData` (main.js:168-173,
part_000:113-118): interpolate between the spec's approximate endpoints. -/
noncomputable def interpStep (segmentData : SegmentSpec) (i : ℕ) : SegmentObj × Provenance :=
  let startCoords := segmentData.start_coords
  let endCoords := segmentData.finish_coords
  (buildSegmentObject segmentData i (createInterpolatedPath startCoords endCoords)
    startCoords endCoords, Provenance.interpolated)

/-- Loop body of the part_000 `processSegmentData` main loop
(part_000:140-161): run the coordinate matcher against the single GPX track
and fall back to interpolation when it reports no match. -/
noncomputable def variantStep (track : Track) (segmentData : SegmentSpec) (i : ℕ) :
    SegmentObj × Provenance :=
  let startCoords := segmentData.start_coords
  let endCoords := segmentData.finish_coords
  match findGpxSegmentForCoordinates true track startCoords endCoords with
  | some segmentPath =>
    if 2 ≤ segmentPath.length then
      (buildSegmentObject segmentData i segmentPath (segmentPath.getD 0 pd)
        (segmentPath.getD (segmentPath.length - 1) pd), Provenance.gpsMatched)
    else
      (buildSegmentObject segmentData i (createInterpolatedPath startCoords endCoords)
        startCoords endCoords, Provenance.interpolated)
  | none =>
    (buildSegmentObject segmentData i (createInterpolatedPath startCoords endCoords)
      startCoords endCoords, Provenance.interpolated)

/-- `processSegmentData` of the part_000 variant (part_000:110-170).  The
guard `!trailGpxParser || !gpxTrailPoints || gpxTrailPoints.length === 0`
routes absent or empty GPS data to the all-interpolated branch; otherwise
every segment is matched against `trailGpxParser.tracks[0]`. -/
noncomputable def processSegmentDataVariant (routeData : List SegmentSpec)
    (trailGpxParser : Option GpxParser) (gpxTrailPoints : List Point) :
    List (SegmentObj × Provenance) :=
  match trailGpxParser with
  | none => assembleLoop interpStep routeData 0
  | some parser =>
    if gpxTrailPoints.length = 0 then assembleLoop interpStep routeData 0
    else assembleLoop (variantStep (parser.tracks.getD 0 defaultTrack)) routeData 0

/-- The fixed segment-name prefixes of the main.js variant
(main.js:180-182). -/
def SEGMENT_ORDER : List String :=
  ["01", "02", "03", "04", "05", "06", "07", "08", "09", "10", "11",
   "CW01", "CW02", "CW03", "CW05"]

/-- Main.js `processSegmentData` track lookup (main.js:187-211): the first
GPX track whose (lower-cased) name starts with the given segment prefix. -/
def findTrackIndexFor (tracks : List Track) (targetSegment : String) : Option ℕ :=
  (List.range tracks.length).find? fun trackIndex =>
    match (tracks.getD trackIndex defaultTrack).name with
    | some nm => nm.toLower.startsWith targetSegment.toLower
    | none => false

/-- Loop body of the main.js `processSegmentData` main loop
(main.js:220-261): use the mapped named GPX track in full (with its true
GPS endpoints) when it exists and has at least 2 points, otherwise
interpolate. -/
noncomputable def mainStep (parser : GpxParser) (trackOrder : List (Option ℕ))
    (segmentData : SegmentSpec) (i : ℕ) : SegmentObj × Provenance :=
  let startCoords := segmentData.start_coords
  let endCoords := segmentData.finish_coords
  match trackOrder.getD i none with
  | some gpxTrackIndex =>
    if gpxTrackIndex < parser.tracks.length then
      let gpxTrack := parser.tracks.getD gpxTrackIndex defaultTrack
      if 2 ≤ gpxTrack.points.length then
        let trackCoords := gpxTrack.points
        (buildSegmentObject segmentData i trackCoords (trackCoords.getD 0 pd)
          (trackCoords.getD (trackCoords.length - 1) pd), Provenance.gpsMatched)
      else
        (buildSegmentObject segmentData i (createInterpolatedPath startCoords endCoords)
          startCoords endCoords, Provenance.interpolated)
    else
      (buildSegmentObject segmentData i (createInterpolatedPath startCoords endCoords)
        startCoords endCoords, Provenance.interpolated)
  | none =>
    (buildSegmentObject segmentData i (createInterpolatedPath startCoords endCoords)
      startCoords endCoords, Provenance.interpolated)

/-- `processSegmentData` of the main.js variant (main.js:163-271): absent
GPX data goes to the all-interpolated branch; otherwise the
`CORRECT_TRACK_ORDER` name mapping is built and each segment uses its
mapped named track or interpolation. -/
noncomputable def processSegmentDataMain (routeData : List SegmentSpec)
    (trailGpxParser : Option GpxParser) : List (SegmentObj × Provenance) :=
  match trailGpxParser with
  | none => assembleLoop interpStep routeData 0
  | some parser =>
    let CORRECT_TRACK_ORDER := SEGMENT_ORDER.map (findTrackIndexFor parser.tracks)
    assembleLoop (mainStep parser CORRECT_TRACK_ORDER) routeData 0

/-- The source's `gpxMatchCount`: it is incremented exactly once per
real-GPS-branch iteration, so it equals the number of gps-matched entries
of the output. -/
def gpxMatchCount (out : List (SegmentObj × Provenance)) : ℕ :=
  out.countP fun x => x.2 = Provenance.gpsMatched

/-- The source's `interpolatedCount`. -/
def interpolatedCount (out : List (SegmentObj × Provenance)) : ℕ :=
  out.countP fun x => x.2 = Provenance.interpolated

/-- The coverage percentage reported by the assembler:
`(gpxMatchCount / segments.length) * 100`. -/
noncomputable def coveragePercent (out : List (SegmentObj × Provenance)) : ℝ :=
  ((gpxMatchCount out : ℝ) / (out.length : ℝ)) * 100

/-- Concrete GPS data used to exercise the matcher: a recorded track that
backtracks past the two targets, so that the slice between the two nearest
indices (0 and 2) winds 29 times the straight-line target distance. -/
noncomputable def trackC1 : Track := ⟨[(0, 0), (0, 30), (0, 2), (0, 0.1)], none, none⟩

/-- Concrete GPS data for the distance-budget strategy: eleven points walking
0.1° of longitude each at latitude 85°, with the parser's cumulative
haversine distances (≈970 m per 0.1° of longitude at that latitude). -/
noncomputable def pointsC2 : List Point :=
  [(85, 0), (85, 0.1), (85, 0.2), (85, 0.3), (85, 0.4), (85, 0.5), (85, 0.6), (85, 0.7),
   (85, 0.8), (85, 0.9), (85, 1)]

/-- The cumulative-distance array of `pointsC2` as the parser reports it. -/
noncomputable def cumulC2 : List ℝ :=
  [0, 970, 1940, 2910, 3880, 4850, 5820, 6790, 7760, 8730, 9700]

/-- The track combining `pointsC2` and `cumulC2`. -/
noncomputable def trackC2 : Track := ⟨pointsC2, none, some cumulC2⟩

/-- A 2000-point track: every point sits at planar distance 10 from the
origin except the point at (odd) index 101, which sits at the origin
itself.  At this length the coarse pass of `findClosestPointIndex` samples
only every 2nd index and the refine window spans indices 0..49, so index
101 is never examined. -/
noncomputable def trackC3 : List Point :=
  (List.range 2000).map fun k => ((0 : ℝ), if k = 101 then 0 else 10)

/-- Integer-valued mirror of the squared planar distances from `trackC3` to
the origin, used to run the (comparison-only) search computably. -/
def dzC3 : ℕ → ℤ := fun i => if i = 101 then 0 else 100

/-- A two-point track on which strategy 1 succeeds with winding ratio 1. -/
noncomputable def trackC4 : Track := ⟨[(0, 0), (0, 1)], none, none⟩

/-- A SegmentSpec with the given name and approximate endpoints (the
descriptive fields play no role in the matching core). -/
def specW (nm : String) (s e : Point) : SegmentSpec := ⟨nm, "", "", 0, "", s, e⟩

lemma calcDist_axis (p q : Point) (h : p.1 = q.1) : calculateDistance p q = |p.2 - q.2| := by
  unfold calculateDistance
  rw [h]
  simp [Real.sqrt_sq_eq_abs]

lemma abs_ite (x : ℝ) : |x| = if 0 ≤ x then x else -x := by
  split
  · exact abs_of_nonneg (by assumption)
  · exact abs_of_neg (by linarith [not_le.mp (by assumption : ¬ (0:ℝ) ≤ x)])

lemma calcDist_self (p : Point) : calculateDistance p p = 0 := by
  unfold calculateDistance
  simp

lemma head?_eq_getD {α : Type} (l : List α) (d : α) (h : l ≠ []) :
    l.head? = some (l.getD 0 d) := by
  cases l with
  | nil => exact absurd rfl h
  | cons a t => simp [List.getD]

lemma getLast?_eq_getD {α : Type} (l : List α) (d : α) (h : l ≠ []) :
    l.getLast? = some (l.getD (l.length - 1) d) := by
  have hlt : l.length - 1 < l.length := by
    cases l with
    | nil => exact absurd rfl h
    | cons a t => simp
  rw [List.getLast?_eq_getElem?, List.getElem?_eq_getElem hlt, List.getD_eq_getElem l d hlt]

/-- C10: when the target start and end coordinates coincide, the
straight-line distance is zero, the winding ratio degenerates (division by
zero), and `extractGpsTrackBetweenPoints` always rejects the candidate and
reports no match, without throwing.  (JavaScript produces Infinity or NaN
for the ratio there; either fails the strict band `(0.5, 10)` exactly as
the `x / 0 = 0` convention of the model does.) -/
theorem C10_equal_targets_always_rejected (snap : Bool) (gpxCoords : List Point)
    (startIdx endIdx : ℕ) (t : Point) :
    extractGpsTrackBetweenPoints snap gpxCoords startIdx endIdx t t = none := by
  unfold extractGpsTrackBetweenPoints
  dsimp only
  split
  · rfl
  · have hr : extractWindingRatio snap gpxCoords startIdx endIdx t t = 0 := by
      unfold extractWindingRatio
      rw [calcDist_self, div_zero]
    rw [hr]
    norm_num

/-- C5: on a slice of at least two points, the winding test accepts the
candidate exactly when the ratio of its total path length to the
straight-line distance between the original targets lies strictly between
0.5 and 10; in particular ratio 1 is always accepted and ratios 0.1 and 15
are always rejected (the extraction returns no match). -/
theorem C5_winding_band (snap : Bool) (gpxCoords : List Point) (startIdx endIdx : ℕ)
    (targetStart targetEnd : Point)
    (hlen : 2 ≤ (extractRawSegment gpxCoords startIdx endIdx).length) :
    (extractGpsTrackBetweenPoints snap gpxCoords startIdx endIdx targetStart targetEnd =
        some (extractFinalPath snap gpxCoords startIdx endIdx targetStart targetEnd) ↔
      0.5 < extractWindingRatio snap gpxCoords startIdx endIdx targetStart targetEnd ∧
        extractWindingRatio snap gpxCoords startIdx endIdx targetStart targetEnd < 10) ∧
    (extractWindingRatio snap gpxCoords startIdx endIdx targetStart targetEnd = 1 →
      extractGpsTrackBetweenPoints snap gpxCoords startIdx endIdx targetStart targetEnd =
        some (extractFinalPath snap gpxCoords startIdx endIdx targetStart targetEnd)) ∧
    (extractWindingRatio snap gpxCoords startIdx endIdx targetStart targetEnd = 0.1 →
      extractGpsTrackBetweenPoints snap gpxCoords startIdx endIdx targetStart targetEnd = none) ∧
    (extractWindingRatio snap gpxCoords startIdx endIdx targetStart targetEnd = 15 →
      extractGpsTrackBetweenPoints snap gpxCoords startIdx endIdx targetStart targetEnd = none) := by
  have hne : ¬ (extractRawSegment gpxCoords startIdx endIdx).length < 2 := by omega
  unfold extractGpsTrackBetweenPoints
  dsimp only
  rw [if_neg hne]
  refine ⟨?_, ?_, ?_, ?_⟩
  · by_cases hband : 0.5 < extractWindingRatio snap gpxCoords startIdx endIdx targetStart targetEnd ∧
        extractWindingRatio snap gpxCoords startIdx endIdx targetStart targetEnd < 10
    · rw [if_pos hband]
      exact ⟨fun _ => hband, fun _ => rfl⟩
    · rw [if_neg hband]
      exact ⟨fun hcontra => absurd hcontra (by simp), fun hcontra => absurd hcontra hband⟩
  · intro h1
    rw [h1]
    norm_num
  · intro h01
    rw [h01]
    norm_num
  · intro h15
    rw [h15]
    norm_num

/-- Witness for C5: on the two-point track [(0,0),(0,1)] with targets
(0,0) and (0,1), the winding ratio is exactly 1 and the candidate is
accepted. -/
theorem C5_winding_band_witness :
    extractGpsTrackBetweenPoints false [(0, 0), (0, 1)] 0 1 (0, 0) (0, 1) =
      some (extractFinalPath false [(0, 0), (0, 1)] 0 1 (0, 0) (0, 1)) := by
  have hlen : 2 ≤ (extractRawSegment [((0:ℝ), (0:ℝ)), (0, 1)] 0 1).length := by
    norm_num [extractRawSegment]
  have hwr : extractWindingRatio false [((0:ℝ), (0:ℝ)), (0, 1)] 0 1 (0, 0) (0, 1) = 1 := by
    norm_num [extractWindingRatio, extractFinalPath, extractRawSegment,
      calculateTotalDistance, calcDist_axis, abs_ite]
  exact (C5_winding_band false [(0, 0), (0, 1)] 0 1 (0, 0) (0, 1) hlen).2.1 hwr

lemma intelligentSample_spec (points : List Point) (k : ℕ) (hk : 2 ≤ k)
    (hlt : k < points.length) :
    (intelligentSample points k).length = k ∧
    (intelligentSample points k).head? = points.head? ∧
    (intelligentSample points k).getLast? = points.getLast? := by
  have hne : points ≠ [] := List.ne_nil_of_length_pos (by omega)
  have hnotle : ¬ points.length ≤ k := by omega
  unfold intelligentSample
  rw [if_neg hnotle]
  dsimp only
  refine ⟨?_, ?_, ?_⟩
  · rw [List.length_append, List.length_cons, List.length_map,
      List.length_range', List.length_singleton]
    omega
  · rw [head?_eq_getD points pd hne]
    simp
  · rw [getLast?_eq_getD points pd hne]
    rw [List.getLast?_concat]

/-- C8: when the input is strictly longer than the target count (and the
target count is at least 2), `intelligentSample` returns exactly
`targetPoints` points whose first and last elements are the input's first
and last; shorter inputs are returned unchanged. -/
theorem C8_sampler_bounds :
    (∀ (points : List Point) (k : ℕ), 2 ≤ k → k < points.length →
      (intelligentSample points k).length = k ∧
      (intelligentSample points k).head? = points.head? ∧
      (intelligentSample points k).getLast? = points.getLast?) ∧
    (∀ (points : List Point) (k : ℕ), points.length ≤ k →
      intelligentSample points k = points) := by
  constructor
  · intro points k hk hlt
    exact intelligentSample_spec points k hk hlt
  · intro points k hle
    unfold intelligentSample
    rw [if_pos hle]

/-- Witness for C8: sampling a five-point path down to 3 points keeps
exactly 3 points with the original first and last elements. -/
theorem C8_sampler_bounds_witness :
    (intelligentSample [(0, 0), (0, 1), (0, 2), (0, 3), (0, 4)] 3).length = 3 ∧
    (intelligentSample [(0, 0), (0, 1), (0, 2), (0, 3), (0, 4)] 3).head? =
      ([(0, 0), (0, 1), (0, 2), (0, 3), (0, 4)] : List Point).head? ∧
    (intelligentSample [(0, 0), (0, 1), (0, 2), (0, 3), (0, 4)] 3).getLast? =
      ([(0, 0), (0, 1), (0, 2), (0, 3), (0, 4)] : List Point).getLast? :=
  C8_sampler_bounds.1 [(0, 0), (0, 1), (0, 2), (0, 3), (0, 4)] 3 (by norm_num) (by norm_num)

/-- C9: the interpolation fallback always returns exactly 11 points, its
first element is exactly the start coordinate, its last is exactly the end
coordinate, and each intermediate point is the linear interpolation at
parameter i/10. -/
theorem C9_interpolation_shape (s e : Point) :
    (createInterpolatedPath s e).length = 11 ∧
    (createInterpolatedPath s e).head? = some s ∧
    (createInterpolatedPath s e).getLast? = some e ∧
    ∀ i : ℕ, 1 ≤ i → i ≤ 9 →
      (createInterpolatedPath s e).getD i pd =
        (s.1 + (e.1 - s.1) * ((i : ℝ) / 10), s.2 + (e.2 - s.2) * ((i : ℝ) / 10)) := by
  refine ⟨?_, ?_, ?_, ?_⟩
  · unfold createInterpolatedPath
    rw [List.length_append, List.length_cons, List.length_map, List.length_range',
      List.length_singleton]
  · unfold createInterpolatedPath
    simp
  · unfold createInterpolatedPath
    dsimp only
    rw [List.getLast?_concat]
  · intro i h1 h9
    interval_cases i <;>
      norm_num [createInterpolatedPath, List.range', List.getD]

/-- Witness for C9: the midpoint (i = 5) of the interpolation between
(1, 2) and (3, 4). -/
theorem C9_interpolation_shape_witness :
    (createInterpolatedPath (1, 2) (3, 4)).getD 5 pd =
      (1 + (3 - 1) * (((5 : ℕ) : ℝ) / 10), 2 + (4 - 2) * (((5 : ℕ) : ℝ) / 10)) :=
  (C9_interpolation_shape (1, 2) (3, 4)).2.2.2 5 (by norm_num) (by norm_num)

lemma createInterpolatedPath_length (s e : Point) : (createInterpolatedPath s e).length = 11 := by
  unfold createInterpolatedPath
  rw [List.length_append, List.length_cons, List.length_map, List.length_range',
    List.length_singleton]

lemma assembleLoop_length (step : SegmentSpec → ℕ → SegmentObj × Provenance)
    (l : List SegmentSpec) : ∀ i : ℕ, (assembleLoop step l i).length = l.length := by
  induction l with
  | nil => intro i; rfl
  | cons sd rest ih => intro i; simp [assembleLoop, ih (i + 1)]

lemma assembleLoop_names (step : SegmentSpec → ℕ → SegmentObj × Provenance)
    (h : ∀ sd i, (step sd i).1.name = sd.name) (l : List SegmentSpec) :
    ∀ i : ℕ, (assembleLoop step l i).map (fun x => x.1.name) = l.map SegmentSpec.name := by
  induction l with
  | nil => intro i; rfl
  | cons sd rest ih => intro i; simp [assembleLoop, h sd i, ih (i + 1)]

lemma assembleLoop_ids (step : SegmentSpec → ℕ → SegmentObj × Provenance)
    (h : ∀ sd i, (step sd i).1.id = i + 1) (l : List SegmentSpec) :
    ∀ i : ℕ, (assembleLoop step l i).map (fun x => x.1.id) = List.range' (i + 1) l.length := by
  induction l with
  | nil => intro i; rfl
  | cons sd rest ih =>
    intro i
    rw [show List.range' (i + 1) (sd :: rest).length = (i + 1) :: List.range' (i + 2) rest.length
      from by rw [List.length_cons, List.range'_succ]]
    simp [assembleLoop, h sd i, ih (i + 1)]

lemma assembleLoop_mem (step : SegmentSpec → ℕ → SegmentObj × Provenance)
    {P : SegmentObj × Provenance → Prop} (h : ∀ sd i, P (step sd i)) (l : List SegmentSpec) :
    ∀ (i : ℕ) (x : SegmentObj × Provenance), x ∈ assembleLoop step l i → P x := by
  induction l with
  | nil => intro i x hx; cases hx
  | cons sd rest ih =>
    intro i x hx
    rcases (List.mem_cons).mp hx with rfl | hmem
    · exact h sd i
    · exact ih (i + 1) x hmem

lemma counts_partition (out : List (SegmentObj × Provenance)) :
    gpxMatchCount out + interpolatedCount out = out.length := by
  induction out with
  | nil => rfl
  | cons x rest ih =>
    unfold gpxMatchCount interpolatedCount at *
    cases h2 : x.2 <;> simp [List.countP_cons, h2] <;> omega

lemma interpStep_fields (sd : SegmentSpec) (i : ℕ) :
    (interpStep sd i).1.name = sd.name ∧ (interpStep sd i).1.id = i + 1 ∧
    (interpStep sd i).2 = Provenance.interpolated ∧
    (interpStep sd i).1.coordinates.length = 11 :=
  ⟨rfl, rfl, rfl, createInterpolatedPath_length _ _⟩

lemma variantStep_fields (track : Track) (sd : SegmentSpec) (i : ℕ) :
    (variantStep track sd i).1.name = sd.name ∧ (variantStep track sd i).1.id = i + 1 := by
  unfold variantStep
  dsimp only
  split
  · split
    · exact ⟨rfl, rfl⟩
    · exact ⟨rfl, rfl⟩
  · exact ⟨rfl, rfl⟩

lemma mainStep_fields (parser : GpxParser) (trackOrder : List (Option ℕ))
    (sd : SegmentSpec) (i : ℕ) :
    (mainStep parser trackOrder sd i).1.name = sd.name ∧
    (mainStep parser trackOrder sd i).1.id = i + 1 := by
  unfold mainStep
  dsimp only
  split
  · split
    · split
      · exact ⟨rfl, rfl⟩
      · exact ⟨rfl, rfl⟩
    · exact ⟨rfl, rfl⟩
  · exact ⟨rfl, rfl⟩

lemma processVariant_no_gps (routeData : List SegmentSpec) (parser : Option GpxParser) :
    processSegmentDataVariant routeData parser [] = assembleLoop interpStep routeData 0 := by
  cases parser with
  | none => rfl
  | some p => simp [processSegmentDataVariant]

lemma interpAll_spec (routeData : List SegmentSpec) :
    (assembleLoop interpStep routeData 0).length = routeData.length ∧
    (∀ x ∈ assembleLoop interpStep routeData 0,
      x.2 = Provenance.interpolated ∧ x.1.coordinates.length = 11) ∧
    gpxMatchCount (assembleLoop interpStep routeData 0) = 0 ∧
    interpolatedCount (assembleLoop interpStep routeData 0) = routeData.length ∧
    (routeData ≠ [] → coveragePercent (assembleLoop interpStep routeData 0) = 0) := by
  have hmem : ∀ (i : ℕ) (x : SegmentObj × Provenance), x ∈ assembleLoop interpStep routeData i →
      x.2 = Provenance.interpolated ∧ x.1.coordinates.length = 11 :=
    assembleLoop_mem interpStep
      (fun sd i => ⟨(interpStep_fields sd i).2.2.1, (interpStep_fields sd i).2.2.2⟩) routeData
  have hzero : gpxMatchCount (assembleLoop interpStep routeData 0) = 0 := by
    unfold gpxMatchCount
    rw [List.countP_eq_zero]
    intro a ha
    simp [(hmem 0 a ha).1]
  refine ⟨assembleLoop_length interpStep routeData 0, hmem 0, hzero, ?_, ?_⟩
  · have := counts_partition (assembleLoop interpStep routeData 0)
    rw [hzero, assembleLoop_length interpStep routeData 0] at this
    omega
  · intro _
    unfold coveragePercent
    rw [hzero]
    norm_num

/-- C6: when the GPS data is unavailable (main.js: `trailGpxParser` null;
part_000: additionally an empty `gpxTrailPoints` array), the assembler
still produces exactly one segment per spec — never throwing, since the
branch is total — each built by interpolation with 11 points, and the
derived report counts 0 gps-matched segments, all segments interpolated,
and 0% coverage. -/
theorem C6_no_gps_all_interpolated :
    (∀ routeData : List SegmentSpec,
      (processSegmentDataMain routeData none).length = routeData.length ∧
      (∀ x ∈ processSegmentDataMain routeData none,
        x.2 = Provenance.interpolated ∧ x.1.coordinates.length = 11) ∧
      gpxMatchCount (processSegmentDataMain routeData none) = 0 ∧
      interpolatedCount (processSegmentDataMain routeData none) = routeData.length ∧
      (routeData ≠ [] → coveragePercent (processSegmentDataMain routeData none) = 0)) ∧
    (∀ (routeData : List SegmentSpec) (parser : Option GpxParser),
      (processSegmentDataVariant routeData parser []).length = routeData.length ∧
      (∀ x ∈ processSegmentDataVariant routeData parser [],
        x.2 = Provenance.interpolated ∧ x.1.coordinates.length = 11) ∧
      gpxMatchCount (processSegmentDataVariant routeData parser []) = 0 ∧
      interpolatedCount (processSegmentDataVariant routeData parser []) = routeData.length ∧
      (routeData ≠ [] → coveragePercent (processSegmentDataVariant routeData parser []) = 0)) := by
  constructor
  · intro routeData
    exact interpAll_spec routeData
  · intro routeData parser
    rw [processVariant_no_gps routeData parser]
    exact interpAll_spec routeData

/-- Witness for C6: three specs with no GPS data give three interpolated
segments, zero matches and zero coverage, in both variants. -/
theorem C6_no_gps_all_interpolated_witness :
    (processSegmentDataMain [specW ("A") (0, 0) (1, 1), specW ("B") (1, 1) (2, 2),
        specW ("C") (2, 2) (3, 3)] none).length = 3 ∧
    gpxMatchCount (processSegmentDataMain [specW ("A") (0, 0) (1, 1), specW ("B") (1, 1) (2, 2),
        specW ("C") (2, 2) (3, 3)] none) = 0 ∧
    interpolatedCount (processSegmentDataMain [specW ("A") (0, 0) (1, 1), specW ("B") (1, 1) (2, 2),
        specW ("C") (2, 2) (3, 3)] none) = 3 ∧
    coveragePercent (processSegmentDataMain [specW ("A") (0, 0) (1, 1), specW ("B") (1, 1) (2, 2),
        specW ("C") (2, 2) (3, 3)] none) = 0 ∧
    (processSegmentDataVariant [specW ("A") (0, 0) (1, 1), specW ("B") (1, 1) (2, 2),
        specW ("C") (2, 2) (3, 3)] none []).length = 3 := by
  have hm := C6_no_gps_all_interpolated.1
    [specW ("A") (0, 0) (1, 1), specW ("B") (1, 1) (2, 2), specW ("C") (2, 2) (3, 3)]
  have hv := C6_no_gps_all_interpolated.2
    [specW ("A") (0, 0) (1, 1), specW ("B") (1, 1) (2, 2), specW ("C") (2, 2) (3, 3)] none
  exact ⟨hm.1, hm.2.2.1, hm.2.2.2.1, hm.2.2.2.2 (by simp), hv.1⟩

lemma assembler_structure_generic (step : SegmentSpec → ℕ → SegmentObj × Provenance)
    (hname : ∀ sd i, (step sd i).1.name = sd.name)
    (hid : ∀ sd i, (step sd i).1.id = i + 1) (routeData : List SegmentSpec) :
    (assembleLoop step routeData 0).length = routeData.length ∧
    (assembleLoop step routeData 0).map (fun x => x.1.name) = routeData.map SegmentSpec.name ∧
    (assembleLoop step routeData 0).map (fun x => x.1.id) = List.range' 1 routeData.length ∧
    gpxMatchCount (assembleLoop step routeData 0) + interpolatedCount (assembleLoop step routeData 0) =
      routeData.length ∧
    coveragePercent (assembleLoop step routeData 0) =
      (gpxMatchCount (assembleLoop step routeData 0) : ℝ) / (routeData.length : ℝ) * 100 := by
  have hlen := assembleLoop_length step routeData 0
  refine ⟨hlen, assembleLoop_names step hname routeData 0, assembleLoop_ids step hid routeData 0,
    ?_, ?_⟩
  · rw [counts_partition, hlen]
  · unfold coveragePercent
    rw [hlen]

/-- C7: for every input list and every GPS input, both assemblers output
exactly one segment per input spec, in input order (same names in order,
ids 1..n), partition the output between the gps-matched and interpolated
counters, and report coverage (matched / total) * 100. -/
theorem C7_assembler_one_to_one :
    (∀ (routeData : List SegmentSpec) (parser : Option GpxParser) (gpxPts : List Point),
      (processSegmentDataVariant routeData parser gpxPts).length = routeData.length ∧
      (processSegmentDataVariant routeData parser gpxPts).map (fun x => x.1.name) =
        routeData.map SegmentSpec.name ∧
      (processSegmentDataVariant routeData parser gpxPts).map (fun x => x.1.id) =
        List.range' 1 routeData.length ∧
      gpxMatchCount (processSegmentDataVariant routeData parser gpxPts) +
        interpolatedCount (processSegmentDataVariant routeData parser gpxPts) =
          routeData.length ∧
      coveragePercent (processSegmentDataVariant routeData parser gpxPts) =
        (gpxMatchCount (processSegmentDataVariant routeData parser gpxPts) : ℝ) /
          (routeData.length : ℝ) * 100) ∧
    (∀ (routeData : List SegmentSpec) (parser : Option GpxParser),
      (processSegmentDataMain routeData parser).length = routeData.length ∧
      (processSegmentDataMain routeData parser).map (fun x => x.1.name) =
        routeData.map SegmentSpec.name ∧
      (processSegmentDataMain routeData parser).map (fun x => x.1.id) =
        List.range' 1 routeData.length ∧
      gpxMatchCount (processSegmentDataMain routeData parser) +
        interpolatedCount (processSegmentDataMain routeData parser) = routeData.length ∧
      coveragePercent (processSegmentDataMain routeData parser) =
        (gpxMatchCount (processSegmentDataMain routeData parser) : ℝ) /
          (routeData.length : ℝ) * 100) := by
  constructor
  · intro routeData parser gpxPts
    cases parser with
    | none =>
      exact assembler_structure_generic interpStep
        (fun sd i => (interpStep_fields sd i).1) (fun sd i => (interpStep_fields sd i).2.1)
        routeData
    | some p =>
      by_cases hz : gpxPts.length = 0
      · rw [show processSegmentDataVariant routeData (some p) gpxPts =
            assembleLoop interpStep routeData 0 from by
          simp [processSegmentDataVariant, hz]]
        exact assembler_structure_generic interpStep
          (fun sd i => (interpStep_fields sd i).1) (fun sd i => (interpStep_fields sd i).2.1)
          routeData
      · rw [show processSegmentDataVariant routeData (some p) gpxPts =
            assembleLoop (variantStep (p.tracks.getD 0 defaultTrack)) routeData 0 from by
          simp [processSegmentDataVariant, hz]]
        exact assembler_structure_generic (variantStep (p.tracks.getD 0 defaultTrack))
          (fun sd i => (variantStep_fields _ sd i).1) (fun sd i => (variantStep_fields _ sd i).2)
          routeData
  · intro routeData parser
    cases parser with
    | none =>
      exact assembler_structure_generic interpStep
        (fun sd i => (interpStep_fields sd i).1) (fun sd i => (interpStep_fields sd i).2.1)
        routeData
    | some p =>
      exact assembler_structure_generic (mainStep p (SEGMENT_ORDER.map (findTrackIndexFor p.tracks)))
        (fun sd i => (mainStep_fields _ _ sd i).1) (fun sd i => (mainStep_fields _ _ sd i).2)
        routeData

lemma slice_head_last (l : List Point) (lo n : ℕ) (h : (l.drop lo).take n ≠ []) :
    lo < l.length ∧
    ((l.drop lo).take n).head? = some (l.getD lo pd) ∧
    lo + ((l.drop lo).take n).length - 1 < l.length ∧
    ((l.drop lo).take n).getLast? =
      some (l.getD (lo + ((l.drop lo).take n).length - 1) pd) := by
  have hpos : 0 < ((l.drop lo).take n).length := List.length_pos.mpr h
  have hlen : ((l.drop lo).take n).length = min n (l.length - lo) := by
    rw [List.length_take, List.length_drop]
  have hlo : lo < l.length := by omega
  have helem : ∀ j, j < ((l.drop lo).take n).length → ((l.drop lo).take n)[j]? = l[lo + j]? := by
    intro j hj
    rw [List.getElem?_take, if_pos (by omega : j < n), List.getElem?_drop]
  have hlast_lt : lo + ((l.drop lo).take n).length - 1 < l.length := by omega
  refine ⟨hlo, ?_, hlast_lt, ?_⟩
  · rw [List.head?_eq_getElem?, helem 0 hpos, Nat.add_zero,
      List.getElem?_eq_getElem hlo, List.getD_eq_getElem l pd hlo]
  · rw [List.getLast?_eq_getElem?, helem _ (by omega),
      show lo + (((l.drop lo).take n).length - 1) = lo + ((l.drop lo).take n).length - 1 from by omega,
      List.getElem?_eq_getElem hlast_lt, List.getD_eq_getElem l pd hlast_lt]

lemma set_endpoints_spec (l : List Point) (a b : Point) (h : 2 ≤ l.length) :
    ((l.set 0 a).set (l.length - 1) b).head? = some a ∧
    ((l.set 0 a).set (l.length - 1) b).getLast? = some b ∧
    ((l.set 0 a).set (l.length - 1) b).length = l.length := by
  have hlen : ((l.set 0 a).set (l.length - 1) b).length = l.length := by
    rw [List.length_set, List.length_set]
  refine ⟨?_, ?_, hlen⟩
  · rw [List.head?_eq_getElem?, List.getElem?_set_ne (by omega : l.length - 1 ≠ 0),
      List.getElem?_set_self', List.getElem?_eq_getElem (by omega : 0 < l.length)]
    rfl
  · rw [List.getLast?_eq_getElem?, hlen,
      show l.length - 1 = ((l.set 0 a).length - 1) from by rw [List.length_set],
      List.getElem?_set_self', List.getElem?_eq_getElem (by rw [List.length_set]; omega)]
    rfl

lemma extractFinalPath_spec (snap : Bool) (coords : List Point) (si ei : ℕ) (ts te : Point)
    (h2 : 2 ≤ (extractRawSegment coords si ei).length) :
    2 ≤ (extractFinalPath snap coords si ei ts te).length ∧
    (snap = true → (extractFinalPath snap coords si ei ts te).head? = some ts ∧
      (extractFinalPath snap coords si ei ts te).getLast? = some te) ∧
    (snap = false → (extractFinalPath snap coords si ei ts te).head? =
        (extractRawSegment coords si ei).head? ∧
      (extractFinalPath snap coords si ei ts te).getLast? =
        (extractRawSegment coords si ei).getLast?) := by
  unfold extractFinalPath
  dsimp only
  by_cases hs : 300 < (extractRawSegment coords si ei).length
  · rw [if_pos hs]
    obtain ⟨hslen, hshead, hslast⟩ :=
      intelligentSample_spec (extractRawSegment coords si ei) 200 (by norm_num) (by omega)
    cases snap with
    | true =>
      rw [if_pos rfl]
      obtain ⟨hh, hl, hlen2⟩ := set_endpoints_spec (intelligentSample (extractRawSegment coords si ei) 200)
        ts te (by omega)
      refine ⟨by omega, ?_, ?_⟩
      · intro _
        exact ⟨hh, hl⟩
      · intro hcon
        cases hcon
    | false =>
      rw [if_neg Bool.false_ne_true]
      refine ⟨by omega, ?_, ?_⟩
      · intro hcon
        cases hcon
      · intro _
        exact ⟨hshead, hslast⟩
  · rw [if_neg hs]
    cases snap with
    | true =>
      rw [if_pos rfl]
      obtain ⟨hh, hl, hlen2⟩ := set_endpoints_spec (extractRawSegment coords si ei) ts te h2
      refine ⟨by omega, ?_, ?_⟩
      · intro _
        exact ⟨hh, hl⟩
      · intro hcon
        cases hcon
    | false =>
      rw [if_neg Bool.false_ne_true]
      refine ⟨h2, ?_, ?_⟩
      · intro hcon
        cases hcon
      · intro _
        exact ⟨rfl, rfl⟩

lemma extract_some_spec (snap : Bool) (coords : List Point) (si ei : ℕ) (ts te : Point)
    (p : List Point) (h : extractGpsTrackBetweenPoints snap coords si ei ts te = some p) :
    2 ≤ p.length ∧
    (snap = true → p.head? = some ts ∧ p.getLast? = some te) ∧
    (snap = false → ∃ a b, a < coords.length ∧ b < coords.length ∧
      p.head? = some (coords.getD a pd) ∧ p.getLast? = some (coords.getD b pd)) := by
  unfold extractGpsTrackBetweenPoints at h
  dsimp only at h
  by_cases h2 : (extractRawSegment coords si ei).length < 2
  · rw [if_pos h2] at h
    cases h
  · rw [if_neg h2] at h
    have h2' : 2 ≤ (extractRawSegment coords si ei).length := by omega
    have hp : extractFinalPath snap coords si ei ts te = p := by
      by_cases hband : 0.5 < extractWindingRatio snap coords si ei ts te ∧
          extractWindingRatio snap coords si ei ts te < 10
      · rw [if_pos hband] at h
        exact Option.some_injective _ h
      · rw [if_neg hband] at h
        cases h
    obtain ⟨hlen, htrue, hfalse⟩ := extractFinalPath_spec snap coords si ei ts te h2'
    rw [hp] at hlen htrue hfalse
    refine ⟨hlen, htrue, ?_⟩
    intro hsnap
    obtain ⟨hhead, hlast⟩ := hfalse hsnap
    have hne : (coords.drop (min si ei)).take (max si ei + 1 - min si ei) ≠ [] := by
      intro hcon
      have : (extractRawSegment coords si ei).length = 0 := by
        unfold extractRawSegment
        rw [hcon]
        rfl
      omega
    obtain ⟨hlo, hh, hlolt, hl⟩ := slice_head_last coords (min si ei) (max si ei + 1 - min si ei) hne
    refine ⟨min si ei, min si ei + ((coords.drop (min si ei)).take (max si ei + 1 - min si ei)).length - 1,
      hlo, hlolt, ?_, ?_⟩
    · rw [hhead]
      unfold extractRawSegment
      exact hh
    · rw [hlast]
      unfold extractRawSegment
      exact hl

lemma foldl_combine_some (snap : Bool) (coords : List Point) (s e : Point) :
    ∀ (pairs : List ((ℕ × ℝ) × (ℕ × ℝ))) (acc : Option (List Point) × ℝ) (p : List Point),
    (List.foldl (combineStep snap coords s e) acc pairs).1 = some p →
    acc.1 = some p ∨ ∃ a b, extractGpsTrackBetweenPoints snap coords a b s e = some p := by
  intro pairs
  induction pairs with
  | nil => intro acc p h; exact Or.inl h
  | cons pr rest ih =>
    intro acc p h
    rw [List.foldl_cons] at h
    rcases ih _ p h with hacc | hex
    · unfold combineStep at hacc
      dsimp only at hacc
      by_cases hne : pr.1.1 ≠ pr.2.1
      · rw [if_pos hne] at hacc
        rcases hext : extractGpsTrackBetweenPoints snap coords pr.1.1 pr.2.1 s e with _ | path
        · rw [hext] at hacc
          exact Or.inl hacc
        · rw [hext] at hacc
          dsimp only at hacc
          by_cases hlen : 2 ≤ path.length
          · rw [if_pos hlen] at hacc
            by_cases hscore : pr.1.2 + pr.2.2 < acc.2
            · rw [if_pos hscore] at hacc
              refine Or.inr ⟨pr.1.1, pr.2.1, ?_⟩
              rw [hext]
              exact hacc
            · rw [if_neg hscore] at hacc
              exact Or.inl hacc
          · rw [if_neg hlen] at hacc
            exact Or.inl hacc
      · rw [if_neg hne] at hacc
        exact Or.inl hacc
    · exact Or.inr hex

lemma distancePairs_mem (n : ℕ) : ∀ ij ∈ distancePairs n, ij.1 + 10 ≤ ij.2 ∧ ij.2 < n := by
  intro ij hij
  unfold distancePairs at hij
  obtain ⟨i, hi, hj⟩ := List.mem_flatMap.mp hij
  obtain ⟨j, hjr, rfl⟩ := List.mem_map.mp hj
  rw [List.mem_range] at hi
  rw [List.mem_range'_1] at hjr
  omega

lemma scanPairs_some_spec (snap : Bool) (points : List Point) (cumul : List ℝ)
    (td : ℝ) (s e : Point) :
    ∀ (pairs : List (ℕ × ℕ)) (p : List Point),
    (∀ ij ∈ pairs, ij.1 + 10 ≤ ij.2 ∧ ij.2 < points.length) →
    scanPairsForDistance snap points cumul td s e pairs = some p →
    11 ≤ p.length ∧
    (snap = true → p.head? = some s ∧ p.getLast? = some e) ∧
    (snap = false → ∃ a b, a < points.length ∧ b < points.length ∧
      p.head? = some (points.getD a pd) ∧ p.getLast? = some (points.getD b pd)) := by
  intro pairs
  induction pairs with
  | nil => intro p _ h; cases h
  | cons ij rest ih =>
    intro p hmem h
    obtain ⟨hj10, hjn⟩ := hmem ij (List.mem_cons_self ij rest)
    rcases ij with ⟨i, j⟩
    unfold scanPairsForDistance at h
    dsimp only at h
    by_cases hratio : |cumul.getD j 0 - cumul.getD i 0 - td| / td < 0.5
    · rw [if_pos hratio] at h
      have hslicelen : ((points.drop i).take (j + 1 - i)).length = j + 1 - i := by
        rw [List.length_take, List.length_drop]
        omega
      by_cases hlen2 : 2 ≤ ((points.drop i).take (j + 1 - i)).length
      · rw [if_pos hlen2] at h
        have hp := Option.some_injective _ h
        have hne : (points.drop i).take (j + 1 - i) ≠ [] :=
          List.ne_nil_of_length_pos (by omega)
        obtain ⟨hlo, hh, hlolt, hl⟩ := slice_head_last points i (j + 1 - i) hne
        cases snap with
        | true =>
          obtain ⟨hsh, hsl, hslen⟩ :=
            set_endpoints_spec ((points.drop i).take (j + 1 - i)) s e hlen2
          rw [if_pos rfl] at hp
          refine ⟨?_, ?_, ?_⟩
          · rw [← hp, hslen]
            omega
          · intro _
            rw [← hp]
            exact ⟨hsh, hsl⟩
          · intro hcon
            cases hcon
        | false =>
          rw [if_neg Bool.false_ne_true] at hp
          refine ⟨?_, ?_, ?_⟩
          · rw [← hp]
            omega
          · intro hcon
            cases hcon
          · intro _
            rw [← hp]
            exact ⟨i, i + ((points.drop i).take (j + 1 - i)).length - 1, hlo, hlolt, hh, hl⟩
      · rw [if_neg hlen2] at h
        exact ih p (fun x hx => hmem x (List.mem_cons_of_mem _ hx)) h
    · rw [if_neg hratio] at h
      exact ih p (fun x hx => hmem x (List.mem_cons_of_mem _ hx)) h

lemma findSegmentByDistance_some_spec (snap : Bool) (track : Track) (s e : Point)
    (p : List Point) (h : findSegmentByDistance snap track s e = some p) :
    11 ≤ p.length ∧
    (snap = true → p.head? = some s ∧ p.getLast? = some e) ∧
    (snap = false → ∃ a b, a < track.points.length ∧ b < track.points.length ∧
      p.head? = some (track.points.getD a pd) ∧ p.getLast? = some (track.points.getD b pd)) := by
  unfold findSegmentByDistance at h
  rcases hc : track.cumul with _ | cumul
  · rw [hc] at h
    cases h
  · rw [hc] at h
    dsimp only at h
    by_cases hne : cumul.length ≠ track.points.length
    · rw [if_pos hne] at h
      cases h
    · rw [if_neg hne] at h
      exact scanPairs_some_spec snap track.points cumul
        (calculateDistance s e * 111000) s e (distancePairs track.points.length) p
        (distancePairs_mem track.points.length) h

lemma strategies23_some_spec (snap : Bool) (track : Track) (s e : Point) (p : List Point)
    (h : findGpxStrategies23 snap track s e = some p) :
    2 ≤ p.length ∧
    (snap = true → p.head? = some s ∧ p.getLast? = some e) ∧
    (snap = false → ∃ a b, a < track.points.length ∧ b < track.points.length ∧
      p.head? = some (track.points.getD a pd) ∧ p.getLast? = some (track.points.getD b pd)) := by
  have hstage3 : ∀ (h3 : (if track.cumul.isSome then findSegmentByDistance snap track s e
      else none) = some p), 2 ≤ p.length ∧
      (snap = true → p.head? = some s ∧ p.getLast? = some e) ∧
      (snap = false → ∃ a b, a < track.points.length ∧ b < track.points.length ∧
        p.head? = some (track.points.getD a pd) ∧ p.getLast? = some (track.points.getD b pd)) := by
    intro h3
    by_cases hc : track.cumul.isSome
    · rw [if_pos hc] at h3
      obtain ⟨h11, ht, hf⟩ := findSegmentByDistance_some_spec snap track s e p h3
      exact ⟨by omega, ht, hf⟩
    · rw [if_neg hc] at h3
      cases h3
  unfold findGpxStrategies23 at h
  dsimp only at h
  by_cases hcond : ((findNearbyIndices track.points s 3.0).take 5).length ≠ 0 ∧
      ((findNearbyIndices track.points e 3.0).take 5).length ≠ 0
  · rw [if_pos hcond] at h
    rcases hb : (List.foldl (combineStep snap track.points s e) (none, MAX_VALUE)
        (((findNearbyIndices track.points s 3.0).take 5).flatMap fun sp =>
          ((findNearbyIndices track.points e 3.0).take 5).map fun ep => (sp, ep))).1 with _ | bp
    · rw [hb] at h
      exact hstage3 h
    · rw [hb] at h
      dsimp only at h
      have hbp : bp = p := Option.some_injective _ h
      rcases foldl_combine_some snap track.points s e _ (none, MAX_VALUE) bp hb with hcon | ⟨a, b, hab⟩
      · cases hcon
      · rw [hbp] at hab
        exact extract_some_spec snap track.points a b s e p hab
  · rw [if_neg hcond] at h
    exact hstage3 h

lemma findGpx_some_spec (snap : Bool) (track : Track) (s e : Point) (p : List Point)
    (h : findGpxSegmentForCoordinates snap track s e = some p) :
    2 ≤ p.length ∧
    (snap = true → p.head? = some s ∧ p.getLast? = some e) ∧
    (snap = false → ∃ a b, a < track.points.length ∧ b < track.points.length ∧
      p.head? = some (track.points.getD a pd) ∧ p.getLast? = some (track.points.getD b pd)) := by
  unfold findGpxSegmentForCoordinates at h
  dsimp only at h
  by_cases htol : calculateDistance (track.points.getD (findClosestPointIndex track.points s) pd) s ≤ 3.0 ∧
      calculateDistance (track.points.getD (findClosestPointIndex track.points e) pd) e ≤ 3.0
  · rw [if_pos htol] at h
    exact extract_some_spec snap track.points _ _ s e p h
  · rw [if_neg htol] at h
    exact strategies23_some_spec snap track s e p h

/-- C4: the two variants apply their endpoint policies uniformly across all
matching strategies.  In the part_000 variant (`snap = true`) every path
accepted by the matcher starts exactly at the spec's approximate start
coordinate and ends exactly at its approximate end coordinate; in the
main.js variant (`snap = false`) every accepted path starts and ends at
unmodified points of the GPS track itself. -/
theorem C4_endpoint_policy_per_variant :
    (∀ (track : Track) (s e : Point) (p : List Point),
      findGpxSegmentForCoordinates true track s e = some p →
      p.head? = some s ∧ p.getLast? = some e) ∧
    (∀ (track : Track) (s e : Point) (p : List Point),
      findGpxSegmentForCoordinates false track s e = some p →
      ∃ a b, a < track.points.length ∧ b < track.points.length ∧
        p.head? = some (track.points.getD a pd) ∧ p.getLast? = some (track.points.getD b pd)) := by
  constructor
  · intro track s e p h
    exact (findGpx_some_spec true track s e p h).2.1 rfl
  · intro track s e p h
    exact (findGpx_some_spec false track s e p h).2.2 rfl

set_option maxRecDepth 4000 in
lemma c4_eval_true :
    findGpxSegmentForCoordinates true trackC4 (0, 0) (0, 1) = some [(0, 0), (0, 1)] := by
  norm_num [findGpxSegmentForCoordinates, trackC4, findClosestPointIndex, findClosestPointIndexFn,
    bestIndexAux, strideIndices, List.range', extractGpsTrackBetweenPoints, extractRawSegment,
    extractFinalPath, extractWindingRatio, intelligentSample, calculateTotalDistance,
    List.set_cons_zero, List.set_cons_succ, calcDist_axis, abs_ite, MAX_VALUE]

set_option maxRecDepth 4000 in
lemma c4_eval_false :
    findGpxSegmentForCoordinates false trackC4 (0, 0) (0, 1) = some [(0, 0), (0, 1)] := by
  norm_num [findGpxSegmentForCoordinates, trackC4, findClosestPointIndex, findClosestPointIndexFn,
    bestIndexAux, strideIndices, List.range', extractGpsTrackBetweenPoints, extractRawSegment,
    extractFinalPath, extractWindingRatio, intelligentSample, calculateTotalDistance,
    calcDist_axis, abs_ite, MAX_VALUE]

/-- Witness for C4: on the two-point track `trackC4` with targets (0,0)
and (0,1), both variants accept a match; the part_000 variant's path starts
and ends at the targets, and the main.js variant's path starts and ends at
points of the track. -/
theorem C4_endpoint_policy_per_variant_witness :
    (([(0, 0), (0, 1)] : List Point).head? = some (0, 0) ∧
      ([(0, 0), (0, 1)] : List Point).getLast? = some (0, 1)) ∧
    (∃ a b, a < trackC4.points.length ∧ b < trackC4.points.length ∧
      ([(0, 0), (0, 1)] : List Point).head? = some (trackC4.points.getD a pd) ∧
      ([(0, 0), (0, 1)] : List Point).getLast? = some (trackC4.points.getD b pd)) :=
  ⟨C4_endpoint_policy_per_variant.1 trackC4 (0, 0) (0, 1) [(0, 0), (0, 1)] c4_eval_true,
   C4_endpoint_policy_per_variant.2 trackC4 (0, 0) (0, 1) [(0, 0), (0, 1)] c4_eval_false⟩

/-- C2 (amended): the distance-budget strategy returns the first
sub-sequence whose cumulative-distance difference is within 50% relative
error of the target arc length, WITHOUT submitting it to the winding test;
what is guaranteed is only the structural fact that a returned path spans
at least 11 track points (`j ≥ i + 10`).  Its winding ratio can fall
outside the acceptance band (0.5, 10), as the counterexample shows. -/
theorem C2_distance_budget_no_winding_test (snap : Bool) (track : Track) (s e : Point)
    (p : List Point) (h : findSegmentByDistance snap track s e = some p) :
    11 ≤ p.length :=
  (findSegmentByDistance_some_spec snap track s e p h).1

set_option maxRecDepth 8000 in
lemma c2_eval : findSegmentByDistance false trackC2 (85, 0) (85, 0.08) = some pointsC2 := by
  norm_num [findSegmentByDistance, trackC2, pointsC2, cumulC2, distancePairs, List.range,
    List.range.loop, List.range', List.flatMap_cons, List.flatMap_nil, scanPairsForDistance,
    List.take, List.drop, calcDist_axis, abs_ite]

/-- Counterexample for C2: on `trackC2` (a physically consistent
high-latitude track) with targets (85, 0) and (85, 0.08), the
distance-budget strategy returns the full eleven-point path, whose winding
ratio 1 / 0.08 = 12.5 lies outside the strict band (0.5, 10) — the path was
never winding-tested. -/
theorem C2_distance_budget_counterexample :
    findSegmentByDistance false trackC2 (85, 0) (85, 0.08) = some pointsC2 ∧
    ¬ (0.5 < calculateTotalDistance pointsC2 / calculateDistance (85, 0) (85, 0.08) ∧
      calculateTotalDistance pointsC2 / calculateDistance (85, 0) (85, 0.08) < 10) := by
  refine ⟨c2_eval, ?_⟩
  have h1 : calculateTotalDistance pointsC2 = 1 := by
    norm_num [pointsC2, calculateTotalDistance, calcDist_axis, abs_ite]
  have h2 : calculateDistance ((85 : ℝ), (0 : ℝ)) (85, 0.08) = 0.08 := by
    norm_num [calcDist_axis, abs_ite]
  rw [h1, h2]
  norm_num

/-- Witness for C2 (amended): the path returned on `trackC2` indeed has at
least 11 points. -/
theorem C2_distance_budget_no_winding_test_witness : 11 ≤ pointsC2.length :=
  C2_distance_budget_no_winding_test false trackC2 (85, 0) (85, 0.08) pointsC2 c2_eval

/-- C1 (amended): when strategy 1's tolerance check passes (both
nearest-index distances within maxDistance = 3.0), the matcher returns the
result of strategy 1's extraction unconditionally — including `null` when
the winding test rejects the candidate — and never attempts strategy 2:
there is no fall-through after a tolerance-passing extraction. -/
theorem C1_strategy1_result_returned_directly (snap : Bool) (track : Track) (s e : Point)
    (hs : calculateDistance (track.points.getD (findClosestPointIndex track.points s) pd) s ≤ 3.0)
    (he : calculateDistance (track.points.getD (findClosestPointIndex track.points e) pd) e ≤ 3.0) :
    findGpxSegmentForCoordinates snap track s e =
      extractGpsTrackBetweenPoints snap track.points (findClosestPointIndex track.points s)
        (findClosestPointIndex track.points e) s e := by
  unfold findGpxSegmentForCoordinates
  dsimp only
  rw [if_pos ⟨hs, he⟩]

set_option maxRecDepth 8000 in
lemma c1_closest_s : findClosestPointIndex trackC1.points (0, 0) = 0 := by
  norm_num [findClosestPointIndex, findClosestPointIndexFn, bestIndexAux, strideIndices,
    List.range', trackC1, calcDist_axis, abs_ite, MAX_VALUE]

set_option maxRecDepth 8000 in
lemma c1_closest_e : findClosestPointIndex trackC1.points (0, 2) = 2 := by
  norm_num [findClosestPointIndex, findClosestPointIndexFn, bestIndexAux, strideIndices,
    List.range', trackC1, calcDist_axis, abs_ite, MAX_VALUE]

set_option maxRecDepth 8000 in
lemma c1_extract02 :
    extractGpsTrackBetweenPoints false trackC1.points 0 2 (0, 0) (0, 2) = none := by
  norm_num [extractGpsTrackBetweenPoints, extractRawSegment, extractFinalPath,
    extractWindingRatio, calculateTotalDistance, trackC1, calcDist_axis, abs_ite]

set_option maxRecDepth 8000 in
lemma c1_stage23 :
    findGpxStrategies23 false trackC1 (0, 0) (0, 2) = some [(0, 2), (0, 0.1)] := by
  norm_num [findGpxStrategies23, trackC1, findNearbyIndices, List.range, List.range.loop,
    List.filterMap_cons, List.insertionSort, List.orderedInsert, combineStep,
    extractGpsTrackBetweenPoints, extractRawSegment, extractFinalPath, extractWindingRatio,
    calculateTotalDistance, calcDist_axis, abs_ite, MAX_VALUE]

set_option maxRecDepth 8000 in
lemma c1_findgpx : findGpxSegmentForCoordinates false trackC1 (0, 0) (0, 2) = none := by
  norm_num [findGpxSegmentForCoordinates, findClosestPointIndex, findClosestPointIndexFn,
    bestIndexAux, strideIndices, List.range', trackC1, extractGpsTrackBetweenPoints,
    extractRawSegment, extractFinalPath, extractWindingRatio, calculateTotalDistance,
    calcDist_axis, abs_ite, MAX_VALUE]

set_option maxRecDepth 8000 in
lemma c1_tolerances :
    calculateDistance (trackC1.points.getD (findClosestPointIndex trackC1.points (0, 0)) pd)
        (0, 0) ≤ 3.0 ∧
    calculateDistance (trackC1.points.getD (findClosestPointIndex trackC1.points (0, 2)) pd)
        (0, 2) ≤ 3.0 := by
  rw [c1_closest_s, c1_closest_e]
  norm_num [trackC1, calcDist_axis, abs_ite]

/-- Counterexample for C1: on `trackC1` with targets (0,0) and (0,2) the
tolerance check of strategy 1 passes (both nearest distances are 0), the
extracted three-point candidate is rejected by the winding test (its raw
slice has 3 ≥ 2 points but winding ratio 29), and the matcher reports no
match — even though strategy 2, if attempted, would return an accepted
two-point path.  The matcher does not fall through to strategy 2. -/
theorem C1_fallthrough_counterexample :
    calculateDistance (trackC1.points.getD (findClosestPointIndex trackC1.points (0, 0)) pd)
        (0, 0) ≤ 3.0 ∧
    calculateDistance (trackC1.points.getD (findClosestPointIndex trackC1.points (0, 2)) pd)
        (0, 2) ≤ 3.0 ∧
    2 ≤ (extractRawSegment trackC1.points (findClosestPointIndex trackC1.points (0, 0))
        (findClosestPointIndex trackC1.points (0, 2))).length ∧
    extractGpsTrackBetweenPoints false trackC1.points (findClosestPointIndex trackC1.points (0, 0))
        (findClosestPointIndex trackC1.points (0, 2)) (0, 0) (0, 2) = none ∧
    findGpxSegmentForCoordinates false trackC1 (0, 0) (0, 2) = none ∧
    findGpxStrategies23 false trackC1 (0, 0) (0, 2) = some [(0, 2), (0, 0.1)] := by
  refine ⟨c1_tolerances.1, c1_tolerances.2, ?_, ?_, c1_findgpx, c1_stage23⟩
  · rw [c1_closest_s, c1_closest_e]
    norm_num [extractRawSegment, trackC1]
  · rw [c1_closest_s, c1_closest_e]
    exact c1_extract02

/-- Witness for C1 (amended): on `trackC1` the tolerance check passes and
the matcher's result is exactly strategy 1's (rejected) extraction. -/
theorem C1_strategy1_result_returned_directly_witness :
    findGpxSegmentForCoordinates false trackC1 (0, 0) (0, 2) =
      extractGpsTrackBetweenPoints false trackC1.points
        (findClosestPointIndex trackC1.points (0, 0))
        (findClosestPointIndex trackC1.points (0, 2)) (0, 0) (0, 2) :=
  C1_strategy1_result_returned_directly false trackC1 (0, 0) (0, 2)
    c1_tolerances.1 c1_tolerances.2

lemma bestIndexAux_spec {α : Type} [LinearOrder α] (d : ℕ → α) :
    ∀ (idxs : List ℕ) (b : ℕ) (bv : α),
    (bestIndexAux d idxs (b, bv)).2 ≤ bv ∧
    (∀ i ∈ idxs, (bestIndexAux d idxs (b, bv)).2 ≤ d i) ∧
    (bestIndexAux d idxs (b, bv) = (b, bv) ∨
      ((bestIndexAux d idxs (b, bv)).1 ∈ idxs ∧
        (bestIndexAux d idxs (b, bv)).2 = d (bestIndexAux d idxs (b, bv)).1)) := by
  intro idxs
  induction idxs with
  | nil => intro b bv; exact ⟨le_refl _, by simp, Or.inl rfl⟩
  | cons i rest ih =>
    intro b bv
    by_cases hlt : d i < bv
    · have hstep : bestIndexAux d (i :: rest) (b, bv) = bestIndexAux d rest (i, d i) := by
        rw [show bestIndexAux d (i :: rest) (b, bv) =
          if d i < bv then bestIndexAux d rest (i, d i) else bestIndexAux d rest (b, bv) from rfl]
        rw [if_pos hlt]
      obtain ⟨h1, h2, h3⟩ := ih i (d i)
      rw [hstep]
      refine ⟨le_trans h1 (le_of_lt hlt), ?_, ?_⟩
      · intro j hj
        rcases List.mem_cons.mp hj with rfl | hmem
        · exact h1
        · exact h2 j hmem
      · rcases h3 with heq | ⟨hmem, hval⟩
        · right
          rw [heq]
          exact ⟨List.mem_cons_self i rest, rfl⟩
        · right
          exact ⟨List.mem_cons_of_mem i hmem, hval⟩
    · have hstep : bestIndexAux d (i :: rest) (b, bv) = bestIndexAux d rest (b, bv) := by
        rw [show bestIndexAux d (i :: rest) (b, bv) =
          if d i < bv then bestIndexAux d rest (i, d i) else bestIndexAux d rest (b, bv) from rfl]
        rw [if_neg hlt]
      obtain ⟨h1, h2, h3⟩ := ih b bv
      rw [hstep]
      refine ⟨h1, ?_, ?_⟩
      · intro j hj
        rcases List.mem_cons.mp hj with rfl | hmem
        · exact le_trans h1 (not_lt.mp hlt)
        · exact h2 j hmem
      · rcases h3 with heq | ⟨hmem, hval⟩
        · exact Or.inl heq
        · right
          exact ⟨List.mem_cons_of_mem i hmem, hval⟩

lemma findClosestPointIndexFn_le {α : Type} [LinearOrder α] (d : ℕ → α) (len : ℕ) (M : α)
    (hlen0 : 0 < len) (hstep : len / 1000 ≤ 1) (hbound : ∀ i < len, d i < M) :
    ∀ j < len, d (findClosestPointIndexFn d len M) ≤ d j := by
  intro j hj
  have hstep1 : max 1 (len / 1000) = 1 := by omega
  have hidx : strideIndices len 1 = List.range' 0 len := by
    unfold strideIndices
    norm_num
  have hmemiff : ∀ i, i ∈ List.range' 0 len ↔ i < len := by
    intro i
    rw [List.mem_range'_1]
    omega
  obtain ⟨p1le, p1all, p1cases⟩ := bestIndexAux_spec d (List.range' 0 len) 0 M
  rcases p1cases with heq1 | ⟨hmem1, hval1⟩
  · exfalso
    have h0 : (0 : ℕ) ∈ List.range' 0 len := (hmemiff 0).mpr hlen0
    have := p1all 0 h0
    rw [heq1] at this
    exact absurd (lt_of_le_of_lt this (hbound 0 hlen0)) (lt_irrefl M)
  · set r1 := (bestIndexAux d (List.range' 0 len) (0, M)).1 with hr1
    have hr1len : r1 < len := (hmemiff r1).mp hmem1
    have hd1 : ∀ i < len, d r1 ≤ d i := by
      intro i hi
      have := p1all i ((hmemiff i).mpr hi)
      rw [hval1] at this
      exact this
    set lo := r1 - max 50 (1 * 2) with hlo
    set hi := min len (r1 + max 50 (1 * 2)) with hhi
    have hr1mem : r1 ∈ List.range' lo (hi - lo) := by
      rw [List.mem_range'_1]
      omega
    obtain ⟨p2le, p2all, p2cases⟩ := bestIndexAux_spec d (List.range' lo (hi - lo)) r1 M
    have hr2val : (bestIndexAux d (List.range' lo (hi - lo)) (r1, M)).2 =
        d (bestIndexAux d (List.range' lo (hi - lo)) (r1, M)).1 := by
      rcases p2cases with heq2 | ⟨_, hval2⟩
      · exfalso
        have := p2all r1 hr1mem
        rw [heq2] at this
        exact absurd (lt_of_le_of_lt this (hbound r1 hr1len)) (lt_irrefl M)
      · exact hval2
    have hfinal : d (bestIndexAux d (List.range' lo (hi - lo)) (r1, M)).1 ≤ d j := by
      have h2r1 := p2all r1 hr1mem
      rw [hr2val] at h2r1
      exact le_trans h2r1 (hd1 j hj)
    have hgoal : findClosestPointIndexFn d len M =
        (bestIndexAux d (List.range' lo (hi - lo)) (r1, M)).1 := by
      unfold findClosestPointIndexFn
      dsimp only
      rw [hstep1, hidx, ← hr1, ← hlo, ← hhi]
    rw [hgoal]
    exact hfinal

/-- C3 (amended): for every non-empty track of fewer than 2000 points
(where the coarse pass scans every index) whose planar distances to the
target stay below `Number.MAX_VALUE`, the index returned by the two-pass
search has planar distance ≤ the distance of every other index.  For
longer tracks the claim fails: the coarse stride can skip the true nearest
point and the refine window need not contain it (see the counterexample on
a 2000-point track). -/
theorem C3_nearest_global_for_short_tracks (coords : List Point) (target : Point)
    (hne : coords ≠ []) (hlen : coords.length < 2000)
    (hbound : ∀ i < coords.length,
      calculateDistance (coords.getD i pd) target < MAX_VALUE)
    (j : ℕ) (hj : j < coords.length) :
    calculateDistance (coords.getD (findClosestPointIndex coords target) pd) target ≤
      calculateDistance (coords.getD j pd) target := by
  have h0 : 0 < coords.length := List.length_pos.mpr hne
  have hdiv : coords.length / 1000 ≤ 1 := by omega
  exact findClosestPointIndexFn_le (fun i => calculateDistance (coords.getD i pd) target)
    coords.length MAX_VALUE h0 hdiv hbound j hj

/-- Witness for C3 (amended): on the three-point track [(0,3),(0,1),(0,2)]
with target (0,0) the returned index is at least as close as index 0. -/
theorem C3_nearest_global_for_short_tracks_witness :
    calculateDistance
      (([(0, 3), (0, 1), (0, 2)] : List Point).getD
        (findClosestPointIndex [(0, 3), (0, 1), (0, 2)] (0, 0)) pd) (0, 0) ≤
    calculateDistance (([(0, 3), (0, 1), (0, 2)] : List Point).getD 0 pd) (0, 0) := by
  refine C3_nearest_global_for_short_tracks [(0, 3), (0, 1), (0, 2)] (0, 0)
    (by simp) (by norm_num) ?_ 0 (by norm_num)
  intro i hi
  norm_num at hi
  interval_cases i <;> norm_num [calcDist_axis, abs_ite, MAX_VALUE]

lemma bestIndexAux_congr {α β : Type} [LinearOrder α] [LinearOrder β]
    (d : ℕ → α) (d' : ℕ → β) (P : ℕ → Prop) (Ma : α) (Mb : β)
    (hiff : ∀ i j, P i → P j → (d i < d j ↔ d' i < d' j))
    (hmax : ∀ i, P i → d i < Ma ∧ d' i < Mb) :
    ∀ (idxs : List ℕ), (∀ i ∈ idxs, P i) →
    ∀ (b : ℕ) (bv : α) (bv' : β),
    ((bv = Ma ∧ bv' = Mb) ∨ (bv = d b ∧ bv' = d' b ∧ P b)) →
    (bestIndexAux d idxs (b, bv)).1 = (bestIndexAux d' idxs (b, bv')).1 := by
  intro idxs
  induction idxs with
  | nil =>
    intro _ b bv bv' _
    rfl
  | cons i rest ih =>
    intro hP b bv bv' hstate
    have hPi : P i := hP i (List.mem_cons_self i rest)
    have hPrest : ∀ x ∈ rest, P x := fun x hx => hP x (List.mem_cons_of_mem i hx)
    have hone : bestIndexAux d (i :: rest) (b, bv) =
        if d i < bv then bestIndexAux d rest (i, d i) else bestIndexAux d rest (b, bv) := rfl
    have hone' : bestIndexAux d' (i :: rest) (b, bv') =
        if d' i < bv' then bestIndexAux d' rest (i, d' i) else bestIndexAux d' rest (b, bv') := rfl
    rcases hstate with ⟨rfl, rfl⟩ | ⟨hbv, hbv', hPb⟩
    · rw [hone, hone', if_pos (hmax i hPi).1, if_pos (hmax i hPi).2]
      exact ih hPrest i (d i) (d' i) (Or.inr ⟨rfl, rfl, hPi⟩)
    · by_cases hlt : d i < bv
      · have hlt' : d' i < bv' := by
          rw [hbv']
          exact (hiff i b hPi hPb).mp (hbv ▸ hlt)
        rw [hone, hone', if_pos hlt, if_pos hlt']
        exact ih hPrest i (d i) (d' i) (Or.inr ⟨rfl, rfl, hPi⟩)
      · have hlt' : ¬ d' i < bv' := by
          rw [hbv']
          intro hcon
          exact hlt (hbv ▸ ((hiff i b hPi hPb).mpr hcon))
        rw [hone, hone', if_neg hlt, if_neg hlt']
        exact ih hPrest b bv bv' (Or.inr ⟨hbv, hbv', hPb⟩)

lemma strideIndices_mem (len step : ℕ) (hstep : 0 < step) :
    ∀ i ∈ strideIndices len step, i < len := by
  intro i hi
  unfold strideIndices at hi
  rw [List.mem_range'] at hi
  obtain ⟨k, hk, rfl⟩ := hi
  by_contra hcon
  push_neg at hcon
  have hmul : len ≤ step * k := by omega
  have hlt : (len + step - 1) / step < k + 1 := by
    rw [Nat.div_lt_iff_lt_mul hstep]
    have hsm : (k + 1) * step = k * step + step := Nat.succ_mul k step
    have hcm : step * k = k * step := Nat.mul_comm step k
    omega
  omega

lemma findClosestPointIndexFn_congr {α β : Type} [LinearOrder α] [LinearOrder β]
    (d : ℕ → α) (d' : ℕ → β) (len : ℕ) (Ma : α) (Mb : β)
    (hiff : ∀ i j, i < len → j < len → (d i < d j ↔ d' i < d' j))
    (hmax : ∀ i, i < len → d i < Ma ∧ d' i < Mb) :
    findClosestPointIndexFn d len Ma = findClosestPointIndexFn d' len Mb := by
  unfold findClosestPointIndexFn
  dsimp only
  have hstep : 0 < max 1 (len / 1000) := by omega
  have hmem1 := strideIndices_mem len (max 1 (len / 1000)) hstep
  have h1 : (bestIndexAux d (strideIndices len (max 1 (len / 1000))) (0, Ma)).1 =
      (bestIndexAux d' (strideIndices len (max 1 (len / 1000))) (0, Mb)).1 :=
    bestIndexAux_congr d d' (fun i => i < len) Ma Mb hiff hmax
      (strideIndices len (max 1 (len / 1000))) hmem1 0 Ma Mb (Or.inl ⟨rfl, rfl⟩)
  rw [h1]
  have hmemw : ∀ i ∈ List.range'
      ((bestIndexAux d' (strideIndices len (max 1 (len / 1000))) (0, Mb)).1 -
        max 50 (max 1 (len / 1000) * 2))
      (min len ((bestIndexAux d' (strideIndices len (max 1 (len / 1000))) (0, Mb)).1 +
          max 50 (max 1 (len / 1000) * 2)) -
        ((bestIndexAux d' (strideIndices len (max 1 (len / 1000))) (0, Mb)).1 -
          max 50 (max 1 (len / 1000) * 2))), i < len := by
    intro i hi
    rw [List.mem_range'_1] at hi
    have hminle : min len ((bestIndexAux d' (strideIndices len (max 1 (len / 1000))) (0, Mb)).1 +
        max 50 (max 1 (len / 1000) * 2)) ≤ len := Nat.min_le_left _ _
    omega
  exact bestIndexAux_congr d d' (fun i => i < len) Ma Mb hiff hmax _ hmemw _ Ma Mb
    (Or.inl ⟨rfl, rfl⟩)

lemma trackC3_length : trackC3.length = 2000 := by
  unfold trackC3
  rw [List.length_map, List.length_range]

lemma trackC3_getD (i : ℕ) (h : i < 2000) :
    trackC3.getD i pd = ((0 : ℝ), if i = 101 then (0 : ℝ) else 10) := by
  have hq : trackC3[i]? = some ((0 : ℝ), if i = 101 then (0 : ℝ) else 10) := by
    unfold trackC3
    rw [List.getElem?_map, List.getElem?_range h]
    rfl
  rw [List.getD_eq_getElem?_getD, hq]
  rfl

lemma dC3_eval (i : ℕ) (h : i < 2000) :
    calculateDistance (trackC3.getD i pd) (0, 0) = if i = 101 then (0 : ℝ) else 10 := by
  rw [trackC3_getD i h,
    calcDist_axis ((0 : ℝ), if i = 101 then (0 : ℝ) else 10) ((0 : ℝ), (0 : ℝ)) rfl]
  by_cases h101 : i = 101 <;> simp [h101, abs_ite]

set_option maxRecDepth 100000 in
lemma c3_mirror_eval : findClosestPointIndexFn dzC3 2000 1000000 = 0 := by decide

/-- Counterexample for C3: on the 2000-point track `trackC3` the two-pass
search returns index 0, at distance 10 from the target, although index 101
lies at distance 0 — the returned index is not the global nearest. -/
theorem C3_nearest_counterexample :
    ¬ (calculateDistance (trackC3.getD (findClosestPointIndex trackC3 (0, 0)) pd) (0, 0) ≤
        calculateDistance (trackC3.getD 101 pd) (0, 0)) := by
  have hiff : ∀ i j, i < 2000 → j < 2000 →
      (calculateDistance (trackC3.getD i pd) (0, 0) <
          calculateDistance (trackC3.getD j pd) (0, 0) ↔ dzC3 i < dzC3 j) := by
    intro i j hi hj
    rw [dC3_eval i hi, dC3_eval j hj]
    unfold dzC3
    by_cases hi101 : i = 101 <;> by_cases hj101 : j = 101 <;>
      simp [hi101, hj101]
  have hmax : ∀ i, i < 2000 →
      calculateDistance (trackC3.getD i pd) (0, 0) < MAX_VALUE ∧ dzC3 i < 1000000 := by
    intro i hi
    rw [dC3_eval i hi]
    unfold dzC3
    by_cases hi101 : i = 101 <;> simp [hi101] <;> norm_num [MAX_VALUE]
  have hr : findClosestPointIndex trackC3 (0, 0) = 0 := by
    unfold findClosestPointIndex
    rw [trackC3_length]
    rw [findClosestPointIndexFn_congr (fun i => calculateDistance (trackC3.getD i pd) (0, 0))
      dzC3 2000 MAX_VALUE 1000000 hiff hmax]
    exact c3_mirror_eval
  rw [hr, dC3_eval 0 (by norm_num), dC3_eval 101 (by norm_num)]
  norm_num
